/-
Verification of the vehicle-tracking backend's service logic.

The route handlers in src/backend/routes/vehicle.js and
src/backend/routes/user.js, the shared coordinate validator, and the
simulator's validator (simulate script) are shallowly embedded below.
The MongoDB/mongoose store is modelled as a list of documents; each
handler becomes a pure function from the store and the request body to
an `Except` of an error or the new store and the response payload.

JavaScript numbers are modelled by `JNum`: NaN, a signed infinity, or a
finite value (a rational — the claims only compare coordinates, never
do arithmetic on them, so exact rationals are adequate). Comparisons
follow IEEE-754 semantics: every comparison with NaN is false.
Timestamps (`Date` values) are modelled as naturals (ms since epoch).
`bcrypt.hash` (salted, hence nondeterministic) and `bcrypt.compare`
are modelled as function parameters of the register/login embeddings.
-/
import Mathlib

namespace VehicleTracking

deriving instance DecidableEq for Except

/-- A JavaScript number: NaN, positive or negative Infinity, or a finite value. -/
inductive JNum where
  | nan : JNum
  | inf : Bool → JNum   -- `inf true` is +Infinity, `inf false` is -Infinity
  | finite : ℚ → JNum
deriving Repr, DecidableEq

/-- JS `<` on numbers: false whenever either side is NaN. -/
def JNum.lt : JNum → JNum → Bool
  | .nan, _ => false
  | _, .nan => false
  | .inf true, _ => false
  | .inf false, .inf false => false
  | .inf false, _ => true
  | .finite _, .inf b => b
  | .finite a, .finite b => decide (a < b)

/-- JS `>` on numbers. -/
def JNum.gt (a b : JNum) : Bool := JNum.lt b a

/-- JS `isNaN` on a number. -/
def JNum.isNaN : JNum → Bool
  | .nan => true
  | _ => false

/-- Display a JNum the way JS string interpolation would. -/
def JNum.repr : JNum → String
  | .nan => "NaN"
  | .inf true => "Infinity"
  | .inf false => "-Infinity"
  | .finite q => toString q

/-- Result object of the validators: `{ valid, error? }`. -/
structure VResult where
  valid : Bool
  error : Option String
deriving Repr, DecidableEq

/-- Function `validateCoordinates` from src/backend/routes/vehicle.js (lines 5-19).
The `typeof` guard on line 6 cannot fire here: both arguments are
numbers by the type of `JNum`, and `typeof NaN === 'number'` in JS,
so the guard is vacuous in this embedding. -/
def validateCoordinates (lat lng : JNum) : VResult :=
  if lat.lt (.finite (-90)) || lat.gt (.finite 90) then
    { valid := false,
      error := some ("Invalid latitude: " ++ lat.repr ++ ". Must be between -90 and 90") }
  else if lng.lt (.finite (-180)) || lng.gt (.finite 180) then
    { valid := false,
      error := some ("Invalid longitude: " ++ lng.repr ++ ". Must be between -180 and 180") }
  else if lat.isNaN || lng.isNaN then
    { valid := false, error := some "Coordinates cannot be NaN" }
  else
    { valid := true, error := none }

/-- Function `validateCoordinates` from the simulator script (src/unnamed/part_000,
lines 7-12): NaN check first, then the two range checks; no error text. -/
def simValidateCoordinates (lat lng : JNum) : VResult :=
  if lat.isNaN || lng.isNaN then { valid := false, error := none }
  else if lat.lt (.finite (-90)) || lat.gt (.finite 90) then { valid := false, error := none }
  else if lng.lt (.finite (-180)) || lng.gt (.finite 180) then { valid := false, error := none }
  else { valid := true, error := none }

/-- A number is a finite value within `[-bound, bound]`. -/
def CoordOK (x : JNum) (bound : ℚ) : Prop :=
  ∃ q : ℚ, x = .finite q ∧ -bound ≤ q ∧ q ≤ bound

instance (x : JNum) (bound : ℚ) : Decidable (CoordOK x bound) :=
  match x with
  | .nan => .isFalse (by rintro ⟨q, h, -⟩; exact JNum.noConfusion h)
  | .inf b => .isFalse (by rintro ⟨q, h, -⟩; exact JNum.noConfusion h)
  | .finite q =>
      if h : -bound ≤ q ∧ q ≤ bound then .isTrue ⟨q, rfl, h.1, h.2⟩
      else .isFalse (by rintro ⟨q', hq', h1, h2⟩; cases hq'; exact h ⟨h1, h2⟩)

/-- The backend validator's verdict as one Boolean expression. -/
theorem validate_valid_eq (lat lng : JNum) :
    (validateCoordinates lat lng).valid =
      (!(lat.lt (.finite (-90)) || lat.gt (.finite 90)) &&
       (!(lng.lt (.finite (-180)) || lng.gt (.finite 180)) &&
        !(lat.isNaN || lng.isNaN))) := by
  unfold validateCoordinates
  cases h1 : (lat.lt (.finite (-90)) || lat.gt (.finite 90)) <;>
    cases h2 : (lng.lt (.finite (-180)) || lng.gt (.finite 180)) <;>
      cases h3 : (lat.isNaN || lng.isNaN) <;> simp [h1, h2, h3]

/-- The simulator validator's verdict as one Boolean expression. -/
theorem simValidate_valid_eq (lat lng : JNum) :
    (simValidateCoordinates lat lng).valid =
      (!(lat.isNaN || lng.isNaN) &&
       (!(lat.lt (.finite (-90)) || lat.gt (.finite 90)) &&
        !(lng.lt (.finite (-180)) || lng.gt (.finite 180)))) := by
  unfold simValidateCoordinates
  cases h1 : (lat.isNaN || lng.isNaN) <;>
    cases h2 : (lat.lt (.finite (-90)) || lat.gt (.finite 90)) <;>
      cases h3 : (lng.lt (.finite (-180)) || lng.gt (.finite 180)) <;> simp [h1, h2, h3]

/-- The backend validator accepts exactly the finite in-range pairs. -/
theorem validate_valid_iff (lat lng : JNum) :
    (validateCoordinates lat lng).valid = true ↔ (CoordOK lat 90 ∧ CoordOK lng 180) := by
  rw [validate_valid_eq]
  rcases lat with _ | bl | a <;> rcases lng with _ | bn | b
  case nan.nan => simp [JNum.isNaN, CoordOK]
  case nan.inf => simp [JNum.isNaN, CoordOK]
  case nan.finite => simp [JNum.isNaN, CoordOK]
  case inf.nan => simp [JNum.isNaN, CoordOK]
  case inf.inf => cases bl <;> cases bn <;> simp [JNum.lt, JNum.gt, JNum.isNaN, CoordOK]
  case inf.finite => cases bl <;> simp [JNum.lt, JNum.gt, JNum.isNaN, CoordOK]
  case finite.nan => simp [JNum.isNaN, CoordOK]
  case finite.inf => cases bn <;> simp [JNum.lt, JNum.gt, JNum.isNaN, CoordOK]
  case finite.finite => simp [JNum.lt, JNum.gt, JNum.isNaN, CoordOK]

/-- The simulator's validator agrees with the backend's on validity. -/
theorem simValidate_eq_validate (lat lng : JNum) :
    (simValidateCoordinates lat lng).valid = (validateCoordinates lat lng).valid := by
  rw [validate_valid_eq, simValidate_valid_eq]
  cases (lat.isNaN || lng.isNaN) <;>
    cases (lat.lt (.finite (-90)) || lat.gt (.finite 90)) <;>
      cases (lng.lt (.finite (-180)) || lng.gt (.finite 180)) <;> simp

/-! ### Vehicle store and route handlers (src/backend/routes/vehicle.js) -/

/-- One entry of a vehicle's `locationHistory` (models locationHistorySchema). -/
structure HistoryEntry where
  lat : JNum
  lng : JNum
  timestamp : Nat
deriving Repr, DecidableEq

/-- A persisted vehicle document (models the mongoose vehicle schema,
`timestamps: true` adding createdAt/updatedAt). `_id` is the store-assigned
ObjectId, modelled as a natural number. -/
structure Vehicle where
  _id : Nat
  name : String
  lat : JNum
  lng : JNum
  lastUpdated : Nat
  locationHistory : List HistoryEntry
  createdAt : Nat
  updatedAt : Nat
deriving Repr, DecidableEq

/-- Error responses of the vehicle routes, per the spec's taxonomy:
400 validation, 400 conflict (duplicate name), 404 not found. -/
inductive VehicleError where
  | validationError (msg : String)
  | conflictError (msg : String)
  | notFoundError (msg : String)
deriving Repr, DecidableEq

/-- HTTP status the handler sends with each error. -/
def VehicleError.status : VehicleError → Nat
  | .validationError _ => 400
  | .conflictError _ => 400
  | .notFoundError _ => 404

/-- JS falsiness of an optional string (`!name` is true when the field is
absent or the empty string). -/
def jsStrFalsy : Option String → Bool
  | none => true
  | some s => s == ""

/-- JS `String.prototype.trim`: strip leading and trailing whitespace
(the mongoose schema's `trim: true` applies the same normalization on
save, so create persists the trimmed name either way). -/
def jsTrim (s : String) : String :=
  ⟨((s.data.dropWhile Char.isWhitespace).reverse.dropWhile Char.isWhitespace).reverse⟩

/-- Handler `POST /` (create, vehicle.js lines 56-90): requires name/lat/lng,
validates coordinates, rejects a duplicate of the trimmed name, then
persists the new vehicle with a one-entry history. `parseFloat` on a
JS number is the identity (the embedding takes the coordinates as
numbers already), so it is not modelled separately. `now` models
`new Date()` and `newId` the ObjectId the store assigns on save. -/
def createVehicle (store : List Vehicle) (name : Option String)
    (lat lng : Option JNum) (now newId : Nat) :
    Except VehicleError (List Vehicle × Vehicle) :=
  if jsStrFalsy name || lat.isNone || lng.isNone then
    .error (.validationError "Vehicle name, latitude, and longitude are required")
  else
    let n := name.getD ""
    let parsedLat := lat.getD .nan
    let parsedLng := lng.getD .nan
    let validation := validateCoordinates parsedLat parsedLng
    if validation.valid = false then
      .error (.validationError (validation.error.getD ""))
    else
      match store.find? (fun v => v.name == jsTrim n) with
      | some _ =>
          .error (.conflictError ("Vehicle with name \"" ++ n ++ "\" already exists"))
      | none =>
          let newVehicle : Vehicle :=
            { _id := newId, name := jsTrim n, lat := parsedLat, lng := parsedLng,
              lastUpdated := now,
              locationHistory := [{ lat := parsedLat, lng := parsedLng, timestamp := now }],
              createdAt := now, updatedAt := now }
          .ok (store ++ [newVehicle], newVehicle)

/-- Saving a found-and-mutated mongoose document writes it back in place:
the first document matching the name is replaced, the rest untouched. -/
def replaceFirst (store : List Vehicle) (n : String) (v' : Vehicle) : List Vehicle :=
  match store with
  | [] => []
  | v :: rest => if v.name == n then v' :: rest else v :: replaceFirst rest n v'

/-- Handler `POST /update` (vehicle.js lines 93-129): requires name/lat/lng,
validates coordinates, 404s when no vehicle has the (untrimmed) name —
it never creates one — and otherwise overwrites the position, sets
`lastUpdated` to the supplied value when one is given (`lastUpdated ?
new Date(lastUpdated) : new Date()`; `lu = none` models an absent or
falsy field) else to now, appends a history entry stamped now, and
keeps only the last 100 entries (`slice(-100)`) when the history
exceeds 100. -/
def updateVehicle (store : List Vehicle) (name : Option String)
    (lat lng : Option JNum) (lu : Option Nat) (now : Nat) :
    Except VehicleError (List Vehicle × Vehicle) :=
  if jsStrFalsy name || lat.isNone || lng.isNone then
    .error (.validationError "Name, lat, and lng are required")
  else
    let n := name.getD ""
    let parsedLat := lat.getD .nan
    let parsedLng := lng.getD .nan
    let validation := validateCoordinates parsedLat parsedLng
    if validation.valid = false then
      .error (.validationError (validation.error.getD ""))
    else
      match store.find? (fun v => v.name == n) with
      | none => .error (.notFoundError ("Vehicle \"" ++ n ++ "\" not found"))
      | some vehicle =>
          let hist := vehicle.locationHistory ++
            [{ lat := parsedLat, lng := parsedLng, timestamp := now }]
          let hist' := if hist.length > 100 then hist.drop (hist.length - 100) else hist
          let vehicle' : Vehicle :=
            { vehicle with
              lat := parsedLat,
              lng := parsedLng,
              lastUpdated := (match lu with | some t => t | none => now),
              locationHistory := hist',
              updatedAt := now }
          .ok (replaceFirst store n vehicle', vehicle')

/-- The store after a create call: unchanged when the handler errors. -/
def storeAfterCreate (store : List Vehicle) (name : Option String)
    (lat lng : Option JNum) (now newId : Nat) : List Vehicle :=
  match createVehicle store name lat lng now newId with
  | .ok (s', _) => s'
  | .error _ => store

/-- The store after an update call: unchanged when the handler errors. -/
def storeAfterUpdate (store : List Vehicle) (name : Option String)
    (lat lng : Option JNum) (lu : Option Nat) (now : Nat) : List Vehicle :=
  match updateVehicle store name lat lng lu now with
  | .ok (s', _) => s'
  | .error _ => store

/-- The response record built by `GET /` for one vehicle (lines 33-45). -/
structure TransformedVehicle where
  _id : Nat
  name : String
  lat : JNum
  lng : JNum
  latitude : JNum
  longitude : JNum
  lastActive : Nat
  lastUpdated : Nat
  locationHistory : List HistoryEntry
  createdAt : Nat
  updatedAt : Nat
deriving Repr, DecidableEq

/-- The total part of the `GET /` map: build the response record.
`parseFloat` of a stored JS number round-trips to itself, so `lat`
and `lng` are taken as stored. -/
def transformRecord (v : Vehicle) : TransformedVehicle :=
  { _id := v._id, name := v.name, lat := v.lat, lng := v.lng,
    latitude := v.lat, longitude := v.lng,
    lastActive := v.lastUpdated, lastUpdated := v.lastUpdated,
    locationHistory := v.locationHistory,
    createdAt := v.createdAt, updatedAt := v.updatedAt }

/-- The `GET /` map callback (lines 26-46): null for an invalid record,
the transformed record otherwise; nulls are filtered out afterwards. -/
def transformVehicle (v : Vehicle) : Option TransformedVehicle :=
  if (validateCoordinates v.lat v.lng).valid then some (transformRecord v) else none

/-- Mongo's `.sort({ lastUpdated: -1 })`: descending by `lastUpdated`. -/
def byLastUpdatedDesc (a b : Vehicle) : Bool := b.lastUpdated ≤ a.lastUpdated

/-- Handler `GET /` (lines 22-53): fetch all, sort by `lastUpdated` descending,
transform each record, drop the invalid ones. -/
def getAllVehicles (store : List Vehicle) : List TransformedVehicle :=
  (store.mergeSort byLastUpdatedDesc).filterMap transformVehicle

/-! ### User store and route handlers (src/backend/routes/user.js) -/

/-- A persisted user document; `password` stores the bcrypt hash, as in
the mongoose user schema. -/
structure User where
  _id : Nat
  username : String
  email : String
  password : String
deriving Repr, DecidableEq

/-- The public user payload the handlers build on success:
an object literal with exactly `_id`, `username`, `email`. -/
structure PublicUser where
  _id : Nat
  username : String
  email : String
deriving Repr, DecidableEq

/-- Project a stored user to the public payload. -/
def publicUser (u : User) : PublicUser :=
  { _id := u._id, username := u.username, email := u.email }

/-- Error responses of the user routes: 400 validation, 400 duplicate
username/email, 401 invalid credentials, 404 profile not found. -/
inductive UserError where
  | validationError (msg : String)
  | conflictError (msg : String)
  | authError (msg : String)
  | notFoundError (msg : String)
deriving Repr, DecidableEq

/-- HTTP status the handler sends with each error. -/
def UserError.status : UserError → Nat
  | .validationError _ => 400
  | .conflictError _ => 400
  | .authError _ => 401
  | .notFoundError _ => 404

/-- Handler `POST /register` (user.js lines 8-90): requires the three fields,
password at least 6 chars (checked first), username at least 3, then
rejects an existing username or email (`$or` lookup; the message says
which field collided), hashes the password and persists the user.
`bcrypt.hash` with its random salt is modelled by the function
parameter `hash`; `newId` is the ObjectId assigned on save. -/
def register (store : List User) (username email password : Option String)
    (hash : String → String) (newId : Nat) :
    Except UserError (List User × PublicUser) :=
  if jsStrFalsy username || jsStrFalsy email || jsStrFalsy password then
    .error (.validationError "Please provide username, email, and password")
  else
    let u := username.getD ""
    let e := email.getD ""
    let p := password.getD ""
    if p.length < 6 then
      .error (.validationError "Password must be at least 6 characters long")
    else if u.length < 3 then
      .error (.validationError "Username must be at least 3 characters long")
    else
      match store.find? (fun usr => usr.username == u || usr.email == e) with
      | some existingUser =>
          .error (.conflictError
            (if existingUser.username == u then "Username already exists"
             else "Email already exists"))
      | none =>
          let user : User := { _id := newId, username := u, email := e, password := hash p }
          .ok (store ++ [user], publicUser user)

/-- Handler `POST /login` (user.js lines 93-146): requires both fields, looks the
user up by username or email, and answers 401 "Invalid username or
password" both when no user matches and when the hash comparison
fails. `bcrypt.compare` is modelled by the function parameter
`compare` (plaintext first, stored hash second). -/
def login (store : List User) (username password : Option String)
    (compare : String → String → Bool) :
    Except UserError PublicUser :=
  if jsStrFalsy username || jsStrFalsy password then
    .error (.validationError "Please provide username and password")
  else
    let u := username.getD ""
    let p := password.getD ""
    match store.find? (fun usr => usr.username == u || usr.email == u) with
    | none => .error (.authError "Invalid username or password")
    | some user =>
        if compare p user.password then .ok (publicUser user)
        else .error (.authError "Invalid username or password")

/-- Handler `GET /profile/:username` (user.js lines 149-178): exact username
lookup, 404 when absent, else the public payload. -/
def getProfile (store : List User) (username : String) :
    Except UserError PublicUser :=
  match store.find? (fun usr => usr.username == username) with
  | none => .error (.notFoundError "User not found")
  | some user => .ok (publicUser user)

/-! ### Unfolding lemmas for the handlers -/

theorem jsStrFalsy_some (n : String) (h : n ≠ "") : jsStrFalsy (some n) = false := by
  simp [jsStrFalsy, h]

/-- Members of `replaceFirst store n v'` come from the store or are `v'`. -/
theorem mem_replaceFirst (store : List Vehicle) (n : String) (v' w : Vehicle)
    (hw : w ∈ replaceFirst store n v') : w = v' ∨ w ∈ store := by
  induction store with
  | nil => simp [replaceFirst] at hw
  | cons v rest ih =>
      unfold replaceFirst at hw
      split at hw
      · rcases List.mem_cons.mp hw with h | h
        · exact .inl h
        · exact .inr (List.mem_cons_of_mem _ h)
      · rcases List.mem_cons.mp hw with h | h
        · exact .inr (h ▸ List.mem_cons_self _ _)
        · rcases ih h with h' | h'
          · exact .inl h'
          · exact .inr (List.mem_cons_of_mem _ h')

/-- The vehicle document the create handler persists. -/
def createdVehicle (n : String) (la ln : JNum) (now newId : Nat) : Vehicle :=
  { _id := newId, name := jsTrim n, lat := la, lng := ln, lastUpdated := now,
    locationHistory := [{ lat := la, lng := ln, timestamp := now }],
    createdAt := now, updatedAt := now }

theorem createVehicle_fresh (store : List Vehicle) (n : String) (la ln : JNum)
    (now newId : Nat) (hn : n ≠ "")
    (hval : (validateCoordinates la ln).valid = true)
    (hfind : store.find? (fun v => v.name == jsTrim n) = none) :
    createVehicle store (some n) (some la) (some ln) now newId =
      .ok (store ++ [createdVehicle n la ln now newId], createdVehicle n la ln now newId) := by
  have hb : (n == "") = false := beq_eq_false_iff_ne.mpr hn
  simp [createVehicle, jsStrFalsy, hb, hval, hfind, createdVehicle]

theorem createVehicle_dup (store : List Vehicle) (n : String) (la ln : JNum)
    (now newId : Nat) (hn : n ≠ "")
    (hval : (validateCoordinates la ln).valid = true)
    (v : Vehicle) (hfind : store.find? (fun w => w.name == jsTrim n) = some v) :
    createVehicle store (some n) (some la) (some ln) now newId =
      .error (.conflictError ("Vehicle with name \"" ++ n ++ "\" already exists")) := by
  have hb : (n == "") = false := beq_eq_false_iff_ne.mpr hn
  simp [createVehicle, jsStrFalsy, hb, hval, hfind]

/-- The vehicle document the update handler writes back. -/
def updatedVehicle (v : Vehicle) (la ln : JNum) (lu : Option Nat) (now : Nat) : Vehicle :=
  let hist := v.locationHistory ++ [{ lat := la, lng := ln, timestamp := now }]
  let hist' := if hist.length > 100 then hist.drop (hist.length - 100) else hist
  { v with
    lat := la,
    lng := ln,
    lastUpdated := (match lu with | some t => t | none => now),
    locationHistory := hist',
    updatedAt := now }

theorem updateVehicle_found (store : List Vehicle) (n : String) (la ln : JNum)
    (lu : Option Nat) (now : Nat) (v : Vehicle) (hn : n ≠ "")
    (hval : (validateCoordinates la ln).valid = true)
    (hfind : store.find? (fun w => w.name == n) = some v) :
    updateVehicle store (some n) (some la) (some ln) lu now =
      .ok (replaceFirst store n (updatedVehicle v la ln lu now),
           updatedVehicle v la ln lu now) := by
  have hb : (n == "") = false := beq_eq_false_iff_ne.mpr hn
  simp [updateVehicle, jsStrFalsy, hb, hval, hfind, updatedVehicle]

theorem updateVehicle_missing (store : List Vehicle) (n : String) (la ln : JNum)
    (lu : Option Nat) (now : Nat) (hn : n ≠ "")
    (hval : (validateCoordinates la ln).valid = true)
    (hfind : store.find? (fun w => w.name == n) = none) :
    updateVehicle store (some n) (some la) (some ln) lu now =
      .error (.notFoundError ("Vehicle \"" ++ n ++ "\" not found")) := by
  have hb : (n == "") = false := beq_eq_false_iff_ne.mpr hn
  simp [updateVehicle, jsStrFalsy, hb, hval, hfind]

/-- Create fails with the conflict error and leaves the store unchanged
whenever some stored vehicle already bears the trimmed name. -/
theorem createVehicle_conflict_of_exists (store : List Vehicle) (n : String)
    (la ln : JNum) (now newId : Nat) (hn : n ≠ "")
    (hval : (validateCoordinates la ln).valid = true)
    (hex : ∃ v ∈ store, v.name = jsTrim n) :
    createVehicle store (some n) (some la) (some ln) now newId =
      .error (.conflictError ("Vehicle with name \"" ++ n ++ "\" already exists")) ∧
    storeAfterCreate store (some n) (some la) (some ln) now newId = store := by
  obtain ⟨v, hv, hname⟩ := hex
  have hsome : (store.find? (fun w => w.name == jsTrim n)).isSome =
      true := List.find?_isSome.mpr ⟨v, hv, by simp [hname]⟩
  obtain ⟨w, hw⟩ := Option.isSome_iff_exists.mp hsome
  have h := createVehicle_dup store n la ln now newId hn hval w hw
  exact ⟨h, by simp [storeAfterCreate, h]⟩

/-! ### The claims -/

/-- C3: for all coordinate pairs, the shared validation predicate accepts
iff the latitude is in [-90, 90], the longitude is in [-180, 180], and
neither is NaN — equivalently both are finite numbers in range (`CoordOK`);
and the simulator's copy of the validator gives the same verdict. -/
theorem validateCoordinates_accepts_iff_in_range (lat lng : JNum) :
    ((validateCoordinates lat lng).valid = true ↔ (CoordOK lat 90 ∧ CoordOK lng 180)) ∧
    (simValidateCoordinates lat lng).valid = (validateCoordinates lat lng).valid :=
  ⟨validate_valid_iff lat lng, simValidate_eq_validate lat lng⟩

/-- C1: an update-by-name request whose coordinates pass validation, for
a name no stored vehicle bears, fails with `NotFoundError` (HTTP 404)
and leaves the store unchanged — update never creates a vehicle. -/
theorem update_nonexistent_fails_notFound (store : List Vehicle) (n : String)
    (la ln : JNum) (lu : Option Nat) (now : Nat) (hn : n ≠ "")
    (hval : (validateCoordinates la ln).valid = true)
    (habsent : ∀ v ∈ store, v.name ≠ n) :
    updateVehicle store (some n) (some la) (some ln) lu now =
      .error (.notFoundError ("Vehicle \"" ++ n ++ "\" not found")) ∧
    (VehicleError.notFoundError ("Vehicle \"" ++ n ++ "\" not found")).status = 404 ∧
    storeAfterUpdate store (some n) (some la) (some ln) lu now = store := by
  have hfind : store.find? (fun w => w.name == n) = none :=
    List.find?_eq_none.mpr (fun v hv => by simpa using habsent v hv)
  have h := updateVehicle_missing store n la ln lu now hn hval hfind
  exact ⟨h, rfl, by simp [storeAfterUpdate, h]⟩

/-- C1 witness: updating "Car-9" against the empty store 404s and the
store stays empty. -/
theorem update_nonexistent_fails_notFound_witness :
    updateVehicle [] (some "Car-9") (some (.finite 1)) (some (.finite 2)) none 5 =
      .error (.notFoundError "Vehicle \"Car-9\" not found") ∧
    (VehicleError.notFoundError "Vehicle \"Car-9\" not found").status = 404 ∧
    storeAfterUpdate [] (some "Car-9") (some (.finite 1)) (some (.finite 2)) none 5 = [] :=
  update_nonexistent_fails_notFound [] "Car-9" (.finite 1) (.finite 2) none 5
    (by decide) (by decide) (by simp)

/-- C4: a create request naming an already-stored vehicle fails with
`ConflictError` and leaves the store unchanged. -/
theorem create_duplicate_name_conflict (store : List Vehicle) (n : String)
    (la ln : JNum) (now newId : Nat) (hn : n ≠ "")
    (hval : (validateCoordinates la ln).valid = true)
    (hex : ∃ v ∈ store, v.name = jsTrim n) :
    createVehicle store (some n) (some la) (some ln) now newId =
      .error (.conflictError ("Vehicle with name \"" ++ n ++ "\" already exists")) ∧
    storeAfterCreate store (some n) (some la) (some ln) now newId = store :=
  createVehicle_conflict_of_exists store n la ln now newId hn hval hex

/-- C4 witness: creating "Car-1" and then creating "Car-1" again — the
second call fails with the conflict error, the store is unchanged and
still contains exactly one vehicle named "Car-1". -/
theorem create_duplicate_name_conflict_witness :
    createVehicle [] (some "Car-1") (some (.finite 1)) (some (.finite 2)) 5 0 =
      .ok ([createdVehicle "Car-1" (.finite 1) (.finite 2) 5 0],
           createdVehicle "Car-1" (.finite 1) (.finite 2) 5 0) ∧
    (createVehicle [createdVehicle "Car-1" (.finite 1) (.finite 2) 5 0] (some "Car-1")
        (some (.finite 3)) (some (.finite 4)) 6 1 =
      .error (.conflictError "Vehicle with name \"Car-1\" already exists") ∧
     storeAfterCreate [createdVehicle "Car-1" (.finite 1) (.finite 2) 5 0] (some "Car-1")
        (some (.finite 3)) (some (.finite 4)) 6 1 =
       [createdVehicle "Car-1" (.finite 1) (.finite 2) 5 0]) ∧
    List.countP (fun v => v.name == "Car-1")
      [createdVehicle "Car-1" (.finite 1) (.finite 2) 5 0] = 1 :=
  ⟨by decide,
   create_duplicate_name_conflict [createdVehicle "Car-1" (.finite 1) (.finite 2) 5 0]
     "Car-1" (.finite 3) (.finite 4) 6 1 (by decide) (by decide)
     ⟨createdVehicle "Car-1" (.finite 1) (.finite 2) 5 0,
      List.mem_singleton_self _, by decide⟩,
   by decide⟩

/-- C10: create persists the trimmed name (the stored name is
`name.trim()`), and because the uniqueness lookup also uses the trimmed
name, a second create whose name differs only in surrounding
whitespace collides: it fails with `ConflictError` and leaves the
store unchanged. -/
theorem create_trims_name_and_collides (store : List Vehicle) (n : String)
    (la ln : JNum) (now newId : Nat) (hn : n ≠ "")
    (hval : (validateCoordinates la ln).valid = true)
    (hfresh : ∀ v ∈ store, v.name ≠ jsTrim n) :
    ∃ nv, createVehicle store (some n) (some la) (some ln) now newId =
        .ok (store ++ [nv], nv) ∧
      nv.name = jsTrim n ∧
      (∀ (m : String) (la2 ln2 : JNum) (now2 id2 : Nat), m ≠ "" → jsTrim m = jsTrim n →
        (validateCoordinates la2 ln2).valid = true →
        createVehicle (store ++ [nv]) (some m) (some la2) (some ln2) now2 id2 =
          .error (.conflictError ("Vehicle with name \"" ++ m ++ "\" already exists")) ∧
        storeAfterCreate (store ++ [nv]) (some m) (some la2) (some ln2) now2 id2 =
          store ++ [nv]) := by
  have hfind : store.find? (fun v => v.name == jsTrim n) = none :=
    List.find?_eq_none.mpr (fun v hv => by simpa using hfresh v hv)
  refine ⟨createdVehicle n la ln now newId,
    createVehicle_fresh store n la ln now newId hn hval hfind, rfl, ?_⟩
  intro m la2 ln2 now2 id2 hm htrim hval2
  exact createVehicle_conflict_of_exists _ m la2 ln2 now2 id2 hm hval2
    ⟨createdVehicle n la ln now newId,
     List.mem_append_right _ (List.mem_singleton_self _),
     by simp [createdVehicle, htrim]⟩

/-- C10 witness: creating "Car-1" then " Car-1 " — the first persists
the name "Car-1"; the second collides and changes nothing. -/
theorem create_trims_name_and_collides_witness :
    ∃ nv, createVehicle [] (some "Car-1") (some (.finite 1)) (some (.finite 2)) 5 0 =
        .ok ([] ++ [nv], nv) ∧
      nv.name = jsTrim "Car-1" ∧
      (∀ (m : String) (la2 ln2 : JNum) (now2 id2 : Nat), m ≠ "" → jsTrim m = jsTrim "Car-1" →
        (validateCoordinates la2 ln2).valid = true →
        createVehicle ([] ++ [nv]) (some m) (some la2) (some ln2) now2 id2 =
          .error (.conflictError ("Vehicle with name \"" ++ m ++ "\" already exists")) ∧
        storeAfterCreate ([] ++ [nv]) (some m) (some la2) (some ln2) now2 id2 =
          [] ++ [nv]) :=
  create_trims_name_and_collides [] "Car-1" (.finite 1) (.finite 2) 5 0
    (by decide) (by decide) (by simp)

/-- The history the update handler writes: append the new entry, then
keep the 100 most recent (truncated subtraction keeps everything while
the list fits in 100). -/
theorem updatedVehicle_locationHistory (v : Vehicle) (la ln : JNum)
    (lu : Option Nat) (now : Nat) :
    (updatedVehicle v la ln lu now).locationHistory =
      (v.locationHistory ++ [(⟨la, ln, now⟩ : HistoryEntry)]).drop
        (v.locationHistory.length + 1 - 100) := by
  simp only [updatedVehicle]
  rw [List.length_append, List.length_singleton]
  by_cases hlen : v.locationHistory.length + 1 > 100
  · rw [if_pos hlen]
  · rw [if_neg hlen]
    have h0 : v.locationHistory.length + 1 - 100 = 0 := by omega
    rw [h0, List.drop_zero]

/-- C2: a successful update-by-name on an existing vehicle overwrites
the position with the given coordinates, sets `lastUpdated` to the
supplied value when given and to now otherwise, appends a history
entry with the new coordinates, and keeps exactly the 100 most recent
entries; in particular appending a 101st entry leaves the length at
100 with the oldest entry evicted and the newest present. -/
theorem update_success_overwrites_appends_evicts (store : List Vehicle) (n : String)
    (la ln : JNum) (lu : Option Nat) (now : Nat) (v : Vehicle) (hn : n ≠ "")
    (hval : (validateCoordinates la ln).valid = true)
    (hfind : store.find? (fun w => w.name == n) = some v) :
    ∃ v', updateVehicle store (some n) (some la) (some ln) lu now =
        .ok (replaceFirst store n v', v') ∧
      v'.lat = la ∧ v'.lng = ln ∧
      v'.lastUpdated = (match lu with | some t => t | none => now) ∧
      v'.locationHistory =
        (v.locationHistory ++ [(⟨la, ln, now⟩ : HistoryEntry)]).drop
          (v.locationHistory.length + 1 - 100) ∧
      (v.locationHistory.length = 100 →
        v'.locationHistory =
          v.locationHistory.tail ++ [(⟨la, ln, now⟩ : HistoryEntry)] ∧
        v'.locationHistory.length = 100 ∧
        v'.locationHistory.getLast? =
          some (⟨la, ln, now⟩ : HistoryEntry)) := by
  refine ⟨updatedVehicle v la ln lu now,
    updateVehicle_found store n la ln lu now v hn hval hfind, rfl, rfl, rfl,
    updatedVehicle_locationHistory v la ln lu now, ?_⟩
  intro h100
  have hdrop := updatedVehicle_locationHistory v la ln lu now
  rw [h100] at hdrop
  have h1 : (100 : Nat) + 1 - 100 = 1 := by omega
  rw [h1, List.drop_append_of_le_length (by omega), List.drop_one] at hdrop
  refine ⟨hdrop, ?_, ?_⟩
  · rw [hdrop]
    simp [List.length_tail, h100]
  · rw [hdrop]
    exact List.getLast?_concat _

/-- A vehicle with a full 100-entry history, for the C2 witness. -/
def fullHistoryCar : Vehicle :=
  { _id := 0, name := "Car-1", lat := .finite 1, lng := .finite 2,
    lastUpdated := 5,
    locationHistory :=
      (⟨.finite 1, .finite 2, 0⟩ : HistoryEntry) ::
        List.replicate 99 (⟨.finite 1, .finite 2, 1⟩ : HistoryEntry),
    createdAt := 5, updatedAt := 5 }

/-- C2 witness: updating a vehicle whose history already has 100
entries; the result carries the supplied lastUpdated, the new
position, and a 100-entry history with the oldest entry gone and the
new entry last. -/
theorem update_success_overwrites_appends_evicts_witness :
    ∃ v', updateVehicle [fullHistoryCar] (some "Car-1") (some (.finite 3))
        (some (.finite 4)) (some 9) 7 =
        .ok (replaceFirst [fullHistoryCar] "Car-1" v', v') ∧
      v'.lat = .finite 3 ∧ v'.lng = .finite 4 ∧
      v'.lastUpdated = (match (some 9 : Option Nat) with | some t => t | none => 7) ∧
      v'.locationHistory =
        (fullHistoryCar.locationHistory ++
          [(⟨.finite 3, .finite 4, 7⟩ : HistoryEntry)]).drop
          (fullHistoryCar.locationHistory.length + 1 - 100) ∧
      (fullHistoryCar.locationHistory.length = 100 →
        v'.locationHistory =
          fullHistoryCar.locationHistory.tail ++
            [(⟨.finite 3, .finite 4, 7⟩ : HistoryEntry)] ∧
        v'.locationHistory.length = 100 ∧
        v'.locationHistory.getLast? =
          some (⟨.finite 3, .finite 4, 7⟩ : HistoryEntry)) :=
  update_success_overwrites_appends_evicts [fullHistoryCar] "Car-1"
    (.finite 3) (.finite 4) (some 9) 7 fullHistoryCar
    (by decide) (by decide) (by rfl)

/-! ### Invariant and list claims -/

/-- The data-model invariant for one stored vehicle: finite in-range
coordinates (hence not NaN) and a history of at most 100 entries. -/
def VehicleInv (v : Vehicle) : Prop :=
  CoordOK v.lat 90 ∧ CoordOK v.lng 180 ∧ v.locationHistory.length ≤ 100

/-- C5: every vehicle persisted by create or update satisfies the
invariant — in-range non-NaN coordinates and history length at most
100 — provided every vehicle already stored does; create and update
preserve the invariant for every stored vehicle. -/
theorem create_update_preserve_invariant (store : List Vehicle)
    (name : Option String) (lat lng : Option JNum) (lu : Option Nat)
    (now newId : Nat) (hinv : ∀ v ∈ store, VehicleInv v) :
    (∀ s' nv, createVehicle store name lat lng now newId = .ok (s', nv) →
       ∀ v ∈ s', VehicleInv v) ∧
    (∀ s' nv, updateVehicle store name lat lng lu now = .ok (s', nv) →
       ∀ v ∈ s', VehicleInv v) := by
  constructor
  · intro s' nv h
    rcases name with _ | n
    · simp [createVehicle, jsStrFalsy] at h
    rcases lat with _ | la
    · simp [createVehicle, jsStrFalsy] at h
    rcases lng with _ | ln
    · simp [createVehicle, jsStrFalsy] at h
    by_cases hn : n = ""
    · subst hn; simp [createVehicle, jsStrFalsy] at h
    by_cases hval : (validateCoordinates la ln).valid = true
    · cases hfind : store.find? (fun w => w.name == jsTrim n) with
      | some w =>
          rw [createVehicle_dup store n la ln now newId hn hval w hfind] at h
          cases h
      | none =>
          rw [createVehicle_fresh store n la ln now newId hn hval hfind] at h
          injection h with h2
          rw [Prod.mk.injEq] at h2
          obtain ⟨h2a, h2b⟩ := h2
          subst h2a
          intro v hv
          rcases List.mem_append.mp hv with hmem | hmem
          · exact hinv v hmem
          · rcases List.mem_singleton.mp hmem with rfl
            obtain ⟨hla, hln⟩ := (validate_valid_iff la ln).mp hval
            exact ⟨hla, hln, by simp [createdVehicle]⟩
    · have hvf : (validateCoordinates la ln).valid = false := by
        cases hvb : (validateCoordinates la ln).valid
        · rfl
        · exact absurd hvb hval
      simp [createVehicle, jsStrFalsy, beq_eq_false_iff_ne.mpr hn, hvf] at h
  · intro s' nv h
    rcases name with _ | n
    · simp [updateVehicle, jsStrFalsy] at h
    rcases lat with _ | la
    · simp [updateVehicle, jsStrFalsy] at h
    rcases lng with _ | ln
    · simp [updateVehicle, jsStrFalsy] at h
    by_cases hn : n = ""
    · subst hn; simp [updateVehicle, jsStrFalsy] at h
    by_cases hval : (validateCoordinates la ln).valid = true
    · cases hfind : store.find? (fun w => w.name == n) with
      | none =>
          rw [updateVehicle_missing store n la ln lu now hn hval hfind] at h
          cases h
      | some w =>
          rw [updateVehicle_found store n la ln lu now w hn hval hfind] at h
          injection h with h2
          rw [Prod.mk.injEq] at h2
          obtain ⟨h2a, h2b⟩ := h2
          subst h2a
          intro v hv
          rcases mem_replaceFirst store n _ v hv with rfl | hmem
          · obtain ⟨hla, hln⟩ := (validate_valid_iff la ln).mp hval
            refine ⟨hla, hln, ?_⟩
            rw [updatedVehicle_locationHistory, List.length_drop,
              List.length_append, List.length_singleton]
            omega
          · exact hinv v hmem
    · have hvf : (validateCoordinates la ln).valid = false := by
        cases hvb : (validateCoordinates la ln).valid
        · rfl
        · exact absurd hvb hval
      simp [updateVehicle, jsStrFalsy, beq_eq_false_iff_ne.mpr hn, hvf] at h

/-- C5 witness: both parts at a concrete call against the empty store. -/
theorem create_update_preserve_invariant_witness :
    (∀ s' nv, createVehicle [] (some "Car-1") (some (.finite 1)) (some (.finite 2)) 5 0 =
        .ok (s', nv) → ∀ v ∈ s', VehicleInv v) ∧
    (∀ s' nv, updateVehicle [] (some "Car-1") (some (.finite 1)) (some (.finite 2)) none 5 =
        .ok (s', nv) → ∀ v ∈ s', VehicleInv v) :=
  create_update_preserve_invariant [] (some "Car-1") (some (.finite 1)) (some (.finite 2))
    none 5 0 (by simp)

/-- Mongo's descending comparator is transitive. -/
theorem byLastUpdatedDesc_trans : ∀ a b c : Vehicle,
    byLastUpdatedDesc a b → byLastUpdatedDesc b c → byLastUpdatedDesc a c := by
  intro a b c hab hbc
  simp only [byLastUpdatedDesc, decide_eq_true_eq] at *
  omega

/-- Mongo's descending comparator is total. -/
theorem byLastUpdatedDesc_total : ∀ a b : Vehicle,
    byLastUpdatedDesc a b || byLastUpdatedDesc b a := by
  intro a b
  simp only [byLastUpdatedDesc, Bool.or_eq_true, decide_eq_true_eq]
  omega

/-- The map-then-drop-nulls pipeline equals filter-then-map. -/
theorem filterMap_transform (l : List Vehicle) :
    l.filterMap transformVehicle =
      (l.filter (fun v => (validateCoordinates v.lat v.lng).valid)).map transformRecord := by
  induction l with
  | nil => rfl
  | cons v rest ih =>
      by_cases h : (validateCoordinates v.lat v.lng).valid = true
      · simp [List.filterMap_cons, List.filter_cons, transformVehicle, h, ih]
      · have hf : (validateCoordinates v.lat v.lng).valid = false := by
          cases hvb : (validateCoordinates v.lat v.lng).valid
          · rfl
          · exact absurd hvb h
        simp [List.filterMap_cons, List.filter_cons, transformVehicle, hf, ih]

/-- C6: the list operation returns the stored vehicles sorted by
lastUpdated descending, with each record whose stored coordinates fail
validation silently omitted; the result is this well-defined list for
every store state, so invalid records never fail the whole call. -/
theorem getAllVehicles_sorted_filters_invalid (store : List Vehicle) :
    List.Pairwise (fun a b => b.lastUpdated ≤ a.lastUpdated) (getAllVehicles store) ∧
    List.Perm (getAllVehicles store)
      ((store.filter (fun v => (validateCoordinates v.lat v.lng).valid)).map
        transformRecord) := by
  constructor
  · have hsorted : List.Pairwise (fun a b => byLastUpdatedDesc a b)
        (store.mergeSort byLastUpdatedDesc) :=
      List.sorted_mergeSort byLastUpdatedDesc_trans byLastUpdatedDesc_total store
    unfold getAllVehicles
    rw [filterMap_transform]
    apply List.pairwise_map.mpr
    have hsub : List.Sublist
        ((store.mergeSort byLastUpdatedDesc).filter
          (fun v => (validateCoordinates v.lat v.lng).valid))
        (store.mergeSort byLastUpdatedDesc) := List.filter_sublist _
    refine (hsorted.sublist hsub).imp ?_
    intro a b hab
    simpa [byLastUpdatedDesc, transformRecord] using hab
  · unfold getAllVehicles
    rw [filterMap_transform]
    exact ((List.mergeSort_perm store byLastUpdatedDesc).filter _).map _

/-! ### User-service claims -/

/-- C7: two failing logins — one with a stored username but a password
failing the hash comparison, one with a name matching no user — get
the same `AuthError` (HTTP 401) with the identical generic message,
revealing nothing about which field was wrong. -/
theorem login_failures_indistinguishable (store : List User)
    (compare : String → String → Bool) (u1 p1 u2 p2 : String)
    (hu1 : u1 ≠ "") (hp1 : p1 ≠ "") (hu2 : u2 ≠ "") (hp2 : p2 ≠ "")
    (user : User)
    (hfind : store.find? (fun usr => usr.username == u1 || usr.email == u1) = some user)
    (hwrong : compare p1 user.password = false)
    (hnone : ∀ usr ∈ store, usr.username ≠ u2 ∧ usr.email ≠ u2) :
    login store (some u1) (some p1) compare =
      .error (.authError "Invalid username or password") ∧
    login store (some u2) (some p2) compare =
      .error (.authError "Invalid username or password") ∧
    (UserError.authError "Invalid username or password").status = 401 := by
  have hb1 : (u1 == "") = false := beq_eq_false_iff_ne.mpr hu1
  have hb2 : (p1 == "") = false := beq_eq_false_iff_ne.mpr hp1
  have hb3 : (u2 == "") = false := beq_eq_false_iff_ne.mpr hu2
  have hb4 : (p2 == "") = false := beq_eq_false_iff_ne.mpr hp2
  have hfind2 : store.find? (fun usr => usr.username == u2 || usr.email == u2) = none :=
    List.find?_eq_none.mpr (fun usr hm => by
      obtain ⟨h1, h2⟩ := hnone usr hm
      simp [h1, h2])
  refine ⟨?_, ?_, rfl⟩
  · simp [login, jsStrFalsy, hb1, hb2, hfind, hwrong]
  · simp [login, jsStrFalsy, hb3, hb4, hfind2]

/-- C7 witness: against a store holding only "alice", logging in as
"alice" with a wrong password and as unknown "bob" produce the same
401 error value. -/
theorem login_failures_indistinguishable_witness :
    login [⟨0, "alice", "a@b.c", "Hsecret"⟩] (some "alice") (some "wrong")
        (fun p h => ("H" ++ p) == h) =
      .error (.authError "Invalid username or password") ∧
    login [⟨0, "alice", "a@b.c", "Hsecret"⟩] (some "bob") (some "pw")
        (fun p h => ("H" ++ p) == h) =
      .error (.authError "Invalid username or password") ∧
    (UserError.authError "Invalid username or password").status = 401 :=
  login_failures_indistinguishable [⟨0, "alice", "a@b.c", "Hsecret"⟩]
    (fun p h => ("H" ++ p) == h) "alice" "wrong" "bob" "pw"
    (by decide) (by decide) (by decide) (by decide)
    ⟨0, "alice", "a@b.c", "Hsecret"⟩ (by rfl) (by decide) (by decide)

/-- C8: register fails with a `ValidationError` whenever the password is
shorter than 6 characters or the username shorter than 3, and succeeds
with a password of length exactly 6 when the username has length at
least 3, the email is nonempty, and no stored user collides on either
field. -/
theorem register_length_boundaries (store : List User) (u e p : String)
    (hash : String → String) (newId : Nat) :
    (u.length < 3 ∨ p.length < 6 →
      ∃ msg, register store (some u) (some e) (some p) hash newId =
        .error (.validationError msg)) ∧
    (p.length = 6 → 3 ≤ u.length → e ≠ "" →
      (∀ usr ∈ store, usr.username ≠ u ∧ usr.email ≠ e) →
      ∃ s' pub, register store (some u) (some e) (some p) hash newId =
        .ok (s', pub)) := by
  constructor
  · intro h
    by_cases hu : u = ""
    · exact ⟨"Please provide username, email, and password",
        by simp [register, jsStrFalsy, hu]⟩
    by_cases he : e = ""
    · exact ⟨"Please provide username, email, and password",
        by simp [register, jsStrFalsy, he]⟩
    by_cases hp : p = ""
    · exact ⟨"Please provide username, email, and password",
        by simp [register, jsStrFalsy, hp]⟩
    have hbu : (u == "") = false := beq_eq_false_iff_ne.mpr hu
    have hbe : (e == "") = false := beq_eq_false_iff_ne.mpr he
    have hbp : (p == "") = false := beq_eq_false_iff_ne.mpr hp
    by_cases hplen : p.length < 6
    · exact ⟨"Password must be at least 6 characters long",
        by simp [register, jsStrFalsy, hbu, hbe, hbp, hplen]⟩
    · have hulen : u.length < 3 := by
        rcases h with h | h
        · exact h
        · exact absurd h hplen
      exact ⟨"Username must be at least 3 characters long",
        by simp [register, jsStrFalsy, hbu, hbe, hbp, hplen, hulen]⟩
  · intro hp6 hu3 he hnoconf
    have hu : u ≠ "" := by
      intro hx
      rw [hx] at hu3
      exact absurd hu3 (by decide)
    have hp : p ≠ "" := by
      intro hx
      rw [hx] at hp6
      exact absurd hp6 (by decide)
    have hfind : store.find? (fun usr => usr.username == u || usr.email == e) = none :=
      List.find?_eq_none.mpr (fun usr hm => by
        obtain ⟨h1, h2⟩ := hnoconf usr hm
        simp [h1, h2])
    have hnp : ¬ p.length < 6 := by omega
    have hnu : ¬ u.length < 3 := by omega
    exact ⟨store ++ [⟨newId, u, e, hash p⟩], publicUser ⟨newId, u, e, hash p⟩,
      by simp [register, jsStrFalsy, beq_eq_false_iff_ne.mpr hu,
        beq_eq_false_iff_ne.mpr he, beq_eq_false_iff_ne.mpr hp, hnp, hnu, hfind]⟩

/-- C8 witness: password "five5" (length 5) fails with a validation
error; password "sixsix" (length 6) with username "bob" (length 3)
succeeds against the empty store. -/
theorem register_length_boundaries_witness :
    (∃ msg, register [] (some "bob") (some "b@c.d") (some "five5") (fun s => s) 0 =
      .error (.validationError msg)) ∧
    (∃ s' pub, register [] (some "bob") (some "b@c.d") (some "sixsix") (fun s => s) 0 =
      .ok (s', pub)) :=
  ⟨(register_length_boundaries [] "bob" "b@c.d" "five5" (fun s => s) 0).1
      (Or.inr (by decide)),
   (register_length_boundaries [] "bob" "b@c.d" "sixsix" (fun s => s) 0).2
      (by decide) (by decide) (by decide) (by simp)⟩

/-- C9: every success payload of register, login, and profile lookup is
the public projection (_id, username, email) of a stored user, and the
projection is independent of the stored password hash — the hash is
never part of a response. -/
theorem user_success_payloads_public_only (store : List User)
    (u e p lu lp pn : String) (hash : String → String)
    (compare : String → String → Bool) (newId : Nat) :
    (∀ s' pub, register store (some u) (some e) (some p) hash newId = .ok (s', pub) →
      ∃ usr ∈ s', pub = publicUser usr) ∧
    (∀ pub, login store (some lu) (some lp) compare = .ok pub →
      ∃ usr ∈ store, pub = publicUser usr) ∧
    (∀ pub, getProfile store pn = .ok pub → ∃ usr ∈ store, pub = publicUser usr) ∧
    (∀ (usr : User) (h : String), publicUser { usr with password := h } = publicUser usr) := by
  refine ⟨?_, ?_, ?_, fun usr h => rfl⟩
  · intro s' pub hok
    simp only [register, Option.getD] at hok
    split at hok
    · cases hok
    · split at hok
      · cases hok
      · split at hok
        · cases hok
        · split at hok
          · cases hok
          · injection hok with h2
            rw [Prod.mk.injEq] at h2
            obtain ⟨h2a, h2b⟩ := h2
            subst h2a
            exact ⟨_, List.mem_append_right _ (List.mem_singleton_self _), h2b.symm⟩
  · intro pub hok
    simp only [login, Option.getD] at hok
    split at hok
    · cases hok
    · split at hok
      · cases hok
      · rename_i user heq
        split at hok
        · injection hok with h2
          exact ⟨user, List.mem_of_find?_eq_some heq, h2.symm⟩
        · cases hok
  · intro pub hok
    simp only [getProfile] at hok
    split at hok
    · cases hok
    · rename_i user heq
      injection hok with h2
      exact ⟨user, List.mem_of_find?_eq_some heq, h2.symm⟩

/-- C9 witness: the profile lookup for "alice" returns exactly her
public projection. -/
theorem user_success_payloads_public_only_witness :
    ∃ usr ∈ [(⟨0, "alice", "a@b.c", "Hsecret"⟩ : User)],
      ({ _id := 0, username := "alice", email := "a@b.c" } : PublicUser) = publicUser usr :=
  (user_success_payloads_public_only [⟨0, "alice", "a@b.c", "Hsecret"⟩]
      "bob" "b@c.d" "sixsix" "alice" "secret" "alice" (fun s => s)
      (fun p h => ("H" ++ p) == h) 1).2.2.1
    { _id := 0, username := "alice", email := "a@b.c" } (by rfl)

end VehicleTracking
